import Mathlib

set_option linter.unusedVariables false

/-
  Shallow embedding of the task-priority mobile-manipulator control core
  (src/src/utils/task.py, src/src/utils/mobile_manipulator.py, src/src/config.py).
  Exact rational arithmetic stands in for Python floats wherever the code is pure
  arithmetic and comparisons; real numbers are used where the code calls
  transcendental functions (sin, cos, sqrt).
-/

/-- Per-joint activation transition of `JointLimits.updateActivation`
(src/src/utils/task.py lines 285-307): the four-branch if/elif chain over one
joint position `p`, limits `l`/`u`, thresholds `actT`/`deactT` and the joint activation value `a` before the call. -/
def jointLimitStep {α : Type} [LinearOrderedField α]
    (a : Int) (p l u actT deactT : α) : Int :=
  if u - actT ≤ p ∧ a = 0 then -1
  else if a = 0 ∧ p ≤ l + actT then 1
  else if a = -1 ∧ p ≤ u - deactT then 0
  else if a = 1 ∧ l + deactT ≤ p then 0
  else a

/-- Full `JointLimits.updateActivation` loop: `for i in range(robot.getDOF() - 2)`
with `getDOF() = 4` runs `i = 0, 1`, reads `getJointPos(i + 1) = q[i]` and writes
`activation[i + 2]`; every other activation entry is untouched. -/
def jointLimitsUpdateActivation (act : Fin 6 → Int) (q : Fin 4 → ℚ)
    (lower upper : Fin 2 → ℚ) (actT deactT : ℚ) : Fin 6 → Int :=
  fun k =>
    if k = 2 then jointLimitStep (act 2) (q 0) (lower 0) (upper 0) actT deactT
    else if k = 3 then jointLimitStep (act 3) (q 1) (lower 1) (upper 1) actT deactT
    else act k

/-- Binary activation transition of `Obstacle3D.updateActivation`
(src/src/utils/task.py lines 353-373): activate when inactive and the distance to
the obstacle is at most `actT`, deactivate when active and the distance is at
least `deactT`, otherwise keep the previous value. -/
def obstacleActivationStep {α : Type} [LinearOrderedField α]
    (active : Bool) (dist actT deactT : α) : Bool :=
  if active = false ∧ dist ≤ actT then true
  else if active = true ∧ deactT ≤ dist then false
  else active

/-- Mutable fields of an `Obstacle3D` task touched by `updateActivation`:
the binary activation flag and the append-only error history. -/
structure ObstacleState where
  activation : Bool
  err_hist : List ℚ

/-- One call of `Obstacle3D.updateActivation`: `dist` is the value
`np.linalg.norm(self.obstacle - ee_xy)` the method computes from the robot;
the method depends on the robot only through this value.  It steps the
activation flag and then appends `dist` to `err_hist`. -/
def obstacleUpdateActivation (s : ObstacleState) (dist actT deactT : ℚ) :
    ObstacleState :=
  { activation := obstacleActivationStep s.activation dist actT deactT,
    err_hist := s.err_hist ++ [dist] }

/-- Mutable fields of a `JointLimits` task touched by `update` / `updateActivation`
(src/src/utils/task.py lines 254-314): the per-joint signed activation array
(shape `(6, 1)` in the source), the gain `K`, the Jacobian and the error. -/
structure JointLimitsTask where
  activation : Fin 6 → Int
  K : ℚ
  J : Matrix (Fin 4) (Fin 4) ℚ
  err : ℚ

/-- One call of `JointLimits.update` (src/src/utils/task.py lines 275-280):
first `updateActivation`, then `J := np.eye(robot.getDOF())` and
`err := self.getGain()` -- the identity Jacobian and the gain are written
unconditionally, independent of the activation array. -/
def jointLimitsUpdate (t : JointLimitsTask) (q : Fin 4 → ℚ)
    (lower upper : Fin 2 → ℚ) (actT deactT : ℚ) : JointLimitsTask :=
  { activation := jointLimitsUpdateActivation t.activation q lower upper actT deactT,
    K := t.K, J := 1, err := t.K }

/-- `JointLimits.isActive` (src/src/utils/task.py lines 309-314): `0` when every
entry of the activation array is zero, `1` otherwise. -/
def jointLimitsIsActive (t : JointLimitsTask) : Int :=
  if ∀ k, t.activation k = 0 then 0 else 1

/-- Squared planar distance between the obstacle point and the end-effector
projection; `np.linalg.norm(obstacle - ee)` in `Obstacle3D.update` is its square
root, so the norm is zero exactly when this value is zero. -/
def obstacleDistSq {α : Type} [LinearOrderedField α] (obs ee : α × α) : α :=
  (obs.1 - ee.1) ^ 2 + (obs.2 - ee.2) ^ 2

/-- Error computation of `Obstacle3D.update` (src/src/utils/task.py lines
337-348): the source computes `(ee - obstacle) / np.linalg.norm(obstacle - ee)`
with no guard on the denominator.  The result is represented exactly as the
numerator pair together with the squared norm (the error vector is the pair
divided by the square root of the second component); `none` models the IEEE
division by the zero norm, which yields NaN components in the source. -/
def obstacle3DUpdateErr {α : Type} [LinearOrderedField α] (ee obs : α × α) :
    Option ((α × α) × α) :=
  if obstacleDistSq obs ee = 0 then none
  else some ((ee.1 - obs.1, ee.2 - obs.2), obstacleDistSq obs ee)

/-- Numpy-style integer indexing into a one-dimensional array: a negative index
wraps around from the end; an index outside `[-len, len)` raises `IndexError`
(modelled by `none`). -/
def numpyGet (q : List ℚ) (i : Int) : Option ℚ :=
  if i < 0 then
    if -(q.length : Int) ≤ i then q.get? (i + q.length).toNat else none
  else if i < (q.length : Int) then q.get? i.toNat else none

/-- `MobileManipulator.getJointPos` (src/src/utils/mobile_manipulator.py lines
179-180): `return self.q[joint - 1]`, with numpy indexing semantics on the
length-4 joint vector `q`. -/
def getJointPos (q : List ℚ) (joint : Int) : Option ℚ :=
  numpyGet q (joint - 1)

/-- Geometric constants of the SwiftPro arm, `ManipulatorParams` in
src/src/utils/mobile_manipulator.py lines 5-13 (exact decimal values). -/
structure ManipulatorParams where
  dof : ℕ
  bx : ℚ
  bz : ℚ
  d1 : ℚ
  d2 : ℚ
  mz : ℚ
  mx : ℚ

/-- The parameter instance built by the `ManipulatorParams` constructor. -/
def manipulatorParams : ManipulatorParams :=
  { dof := 4, bx := 0.0132, bz := 0.108, d1 := 0.142, d2 := 0.1588,
    mz := 0.0722, mx := 0.0565 }

/-- Shape of the array allocated by `np.zeros((6, self.manipulatorParams.dof))`
at the start of `MobileManipulator.getEEJacobian`
(src/src/utils/mobile_manipulator.py line 217); the four assigned columns are
the partial derivatives with respect to the four joint angles `q1..q4`. -/
def EEJacobianShape : ℕ × ℕ := (6, manipulatorParams.dof)

/-- `MobileManipulator.getEEJacobian` (src/src/utils/mobile_manipulator.py lines
216-244).  Arguments are the four joint angles (the source unpacks
`q1, q2, q3, q4 = self.q`) and `eta3 = self.eta[3]`.  Columns 0-3 are the
derivative columns the source assigns for `q1..q4`. -/
noncomputable def getEEJacobian (q1 q2 q3 q4 eta3 : ℝ) :
    Matrix (Fin 6) (Fin 4) ℝ :=
  let l1p := -(manipulatorParams.d1 : ℝ) * Real.sin q2
  let l2p := (manipulatorParams.d2 : ℝ) * Real.cos q3
  let l := (manipulatorParams.bx : ℝ) + l1p + l2p + (manipulatorParams.mx : ℝ)
  let dx_dq1 := -l * Real.sin q1 * Real.cos eta3 - l * Real.cos q1 * Real.sin eta3
  let dy_dq1 := -l * Real.sin q1 * Real.sin eta3 + l * Real.cos q1 * Real.cos eta3
  let dx_dq2 := -(manipulatorParams.d1 : ℝ) * Real.cos q2 *
    (Real.cos q1 * Real.cos eta3 - Real.sin q1 * Real.sin eta3)
  let dy_dq2 := -(manipulatorParams.d1 : ℝ) * Real.cos q2 *
    (Real.cos q1 * Real.sin eta3 + Real.sin q1 * Real.cos eta3)
  let dz_dq2 := (manipulatorParams.d1 : ℝ) * Real.sin q2
  let dx_dq3 := -(manipulatorParams.d2 : ℝ) * Real.sin q3 *
    (Real.cos q1 * Real.cos eta3 - Real.sin q1 * Real.sin eta3)
  -- source line 235 repeats the dx_dq3 cosine expression inside dy_dq3
  let dy_dq3 := -(manipulatorParams.d2 : ℝ) * Real.sin q3 *
    (Real.cos q1 * Real.cos eta3 - Real.sin q1 * Real.sin eta3)
  let dz_dq3 := -(manipulatorParams.d2 : ℝ) * Real.cos q3
  Matrix.of
    ![![dx_dq1, dx_dq2, dx_dq3, 0],
      ![dy_dq1, dy_dq2, dy_dq3, 0],
      ![0, dz_dq2, dz_dq3, 0],
      ![0, 0, 0, 0],
      ![0, 0, 0, 0],
      ![1, 0, 0, 1]]

/-- `MobileManipulator.getEEposition` (src/src/utils/mobile_manipulator.py lines
246-259): closed-form forward kinematics for the end-effector position;
arguments are the joint angles and `eta[0..2]`. -/
noncomputable def getEEposition (q1 q2 q3 q4 eta0 eta1 eta2 : ℝ) : Fin 3 → ℝ :=
  let l1p := -(manipulatorParams.d1 : ℝ) * Real.sin q2
  let l2p := (manipulatorParams.d2 : ℝ) * Real.cos q3
  let l := (manipulatorParams.bx : ℝ) + l1p + l2p + (manipulatorParams.mx : ℝ)
  ![l * Real.cos q1 + eta0,
    l * Real.sin q1 + eta1,
    -((manipulatorParams.bz : ℝ) + (manipulatorParams.d1 : ℝ) * Real.cos (-q2) +
        (manipulatorParams.d2 : ℝ) * Real.sin q3 - (manipulatorParams.mz : ℝ)) + eta2]

/-- `MobileManipulator.move_and_rotate_simultaneously`
(src/src/utils/mobile_manipulator.py lines 73-85): constant-curvature arc update
of the base pose `(x, y, yaw)` from `angular_vel = dQ[0,0]` and
`forward_vel = dQ[1,0]`.  The source computes `R = forward_vel / angular_vel`
with no guard; `none` models the IEEE division by zero (`inf`/NaN propagated
into the pose) when the angular velocity is exactly zero. -/
noncomputable def move_and_rotate_simultaneously
    (x y yaw angular_vel forward_vel dt : ℝ) : Option (ℝ × ℝ × ℝ) :=
  if angular_vel = 0 then none
  else
    let R := forward_vel / angular_vel
    let ICCx := x - R * Real.sin yaw
    let ICCy := y + R * Real.cos yaw
    some (Real.cos (angular_vel * dt) * (x - ICCx) -
            Real.sin (angular_vel * dt) * (y - ICCy) + ICCx,
          Real.sin (angular_vel * dt) * (x - ICCx) +
            Real.cos (angular_vel * dt) * (y - ICCy) + ICCy,
          yaw + angular_vel * dt)

/-- State of the `MobileManipulator` model read by the task updates: joint
vector `q`, base pose vector `eta` (the source stores four components, with
`eta[3]` the yaw used in the kinematics) and the cached end-effector chain
transform `T` read by `getEETransform`. -/
structure RobotState where
  q : Fin 4 → ℝ
  eta : Fin 4 → ℝ
  T : Matrix (Fin 4) (Fin 4) ℝ

/-- `MobileManipulator.getDOF`: returns the constant `self.dof = 4`. -/
def RobotState.getDOF (r : RobotState) : ℕ := 4

/-- `MobileManipulator.getEETransform`: returns the cached transform `self.T[-1]`. -/
def RobotState.getEETransform (r : RobotState) : Matrix (Fin 4) (Fin 4) ℝ := r.T

/-- `getEEJacobian` read through the robot state. -/
noncomputable def RobotState.eeJacobian (r : RobotState) : Matrix (Fin 6) (Fin 4) ℝ :=
  getEEJacobian (r.q 0) (r.q 1) (r.q 2) (r.q 3) (r.eta 3)

/-- `getEEposition` read through the robot state. -/
noncomputable def RobotState.eePosition (r : RobotState) : Fin 3 → ℝ :=
  getEEposition (r.q 0) (r.q 1) (r.q 2) (r.q 3) (r.eta 0) (r.eta 1) (r.eta 2)

/-- Modelled from the spec: `forwardOrientation()` -- the `getEEorientation`
accessor called by `EEOrientation3D.update` is not defined in src/; per the spec
the end-effector heading is a sum of a subset of joint angles plus base yaw,
matching the expression `yaw = q1 + q4 + self.eta[3]` computed inside
`getEEposition`. -/
def RobotState.getEEorientation (r : RobotState) : ℝ := r.q 0 + r.q 3 + r.eta 3

/-- Modelled from the spec: `getMMposition` -- base position accessor absent
from src/; the base pose is `(x, y, yaw)`, so the position is the first two
components of `eta`. -/
def RobotState.getMMposition (r : RobotState) : Fin 2 → ℝ := ![r.eta 0, r.eta 1]

/-- Modelled from the spec: `getMMorientation` -- base heading accessor absent
from src/; the heading component of the base pose `(x, y, yaw)`. -/
def RobotState.getMMorientation (r : RobotState) : ℝ := r.eta 2

/-- Modelled from the spec: `baseJacobian()` / `getMMJacobian` -- absent from
src/; restricted to the base-pose task-space with zero contribution from the
joint columns (the only columns present in this 4-column convention). -/
def RobotState.getMMJacobian (r : RobotState) : Matrix (Fin 3) (Fin 4) ℝ := 0

/-- Fields of an `EEPosition3D` task (src/src/utils/task.py lines 153-167). -/
structure EEPositionTask where
  sigma_d : Fin 3 → ℝ
  K : Matrix (Fin 3) (Fin 3) ℝ
  FeedForward : Fin 3 → ℝ
  J : Matrix (Fin 3) (Fin 4) ℝ
  err : Fin 3 → ℝ

/-- `EEPosition3D.update` (src/src/utils/task.py lines 158-163) as a transformer
of the joint robot/task state: `J := getEEJacobian()[0:3, :]` and
`err := K @ (sigma_d - getEEposition()) + FeedForward`; the robot component is
returned as the method leaves it. -/
noncomputable def EEPosition3D.update (r : RobotState) (t : EEPositionTask) :
    RobotState × EEPositionTask :=
  (r, { t with
        J := Matrix.of fun i j => r.eeJacobian (Fin.castLE (by omega) i) j,
        err := t.K.mulVec (fun i => t.sigma_d i - r.eePosition i) + t.FeedForward })

/-- Fields of an `EEOrientation3D` task (src/src/utils/task.py lines 172-185). -/
structure EEOrientationTask where
  sigma_d : ℝ
  K : ℝ
  FeedForward : ℝ
  J : Fin 4 → ℝ
  err : ℝ

/-- `EEOrientation3D.update` (src/src/utils/task.py lines 176-181):
`J := getEEJacobian()[-1, :]` reshaped to one row, and
`err := K @ (sigma_d - getEEorientation()) + FeedForward`. -/
noncomputable def EEOrientation3D.update (r : RobotState) (t : EEOrientationTask) :
    RobotState × EEOrientationTask :=
  (r, { t with
        J := fun j => r.eeJacobian 5 j,
        err := t.K * (t.sigma_d - r.getEEorientation) + t.FeedForward })

/-- Fields of an `EEConfiguration3D` task (src/src/utils/task.py lines 190-211). -/
structure EEConfigurationTask where
  sigma_d : Fin 4 → ℝ
  K : Matrix (Fin 4) (Fin 4) ℝ
  FeedForward : Fin 4 → ℝ
  J : Matrix (Fin 4) (Fin 4) ℝ
  err : Fin 4 → ℝ
  err_pos : Fin 3 → ℝ
  err_ori : ℝ

/-- `EEConfiguration3D.update` (src/src/utils/task.py lines 194-206):
`J := getEEJacobian()[[0,1,2,5]]`, `err_pos := sigma_d[0:3] - getEEposition()`,
`err_ori := sigma_d[-1] - getEEorientation()`, and
`err := K @ block([err_pos; err_ori]) + FeedForward`. -/
noncomputable def EEConfiguration3D.update (r : RobotState) (t : EEConfigurationTask) :
    RobotState × EEConfigurationTask :=
  let rows : Fin 4 → Fin 6 := ![0, 1, 2, 5]
  let ep : Fin 3 → ℝ := fun i => t.sigma_d (Fin.castLE (by omega) i) - r.eePosition i
  let eo : ℝ := t.sigma_d 3 - r.getEEorientation
  (r, { t with
        J := Matrix.of fun i j => r.eeJacobian (rows i) j,
        err_pos := ep,
        err_ori := eo,
        err := t.K.mulVec ![ep 0, ep 1, ep 2, eo] + t.FeedForward })

/-- Fields of an `MMOrientation` task (src/src/utils/task.py lines 216-229). -/
structure MMOrientationTask where
  sigma_d : ℝ
  K : ℝ
  FeedForward : ℝ
  J : Fin 4 → ℝ
  err : ℝ

/-- `MMOrientation.update` (src/src/utils/task.py lines 220-225):
`J := getMMJacobian()[-1, :]` reshaped to one row, and
`err := K @ (sigma_d - getMMorientation()) + FeedForward`. -/
noncomputable def MMOrientation.update (r : RobotState) (t : MMOrientationTask) :
    RobotState × MMOrientationTask :=
  (r, { t with
        J := fun j => r.getMMJacobian 2 j,
        err := t.K * (t.sigma_d - r.getMMorientation) + t.FeedForward })

/-- Fields of an `MMposition` task (src/src/utils/task.py lines 235-248). -/
structure MMpositionTask where
  sigma_d : Fin 2 → ℝ
  K : Matrix (Fin 2) (Fin 2) ℝ
  FeedForward : Fin 2 → ℝ
  J : Matrix (Fin 2) (Fin 4) ℝ
  err : Fin 2 → ℝ

/-- `MMposition.update` (src/src/utils/task.py lines 239-244):
`J := getMMJacobian()[0:2, :]` and
`err := K @ (sigma_d - getMMposition()) + FeedForward`. -/
noncomputable def MMposition.update (r : RobotState) (t : MMpositionTask) :
    RobotState × MMpositionTask :=
  (r, { t with
        J := Matrix.of fun i j => r.getMMJacobian (Fin.castLE (by omega) i) j,
        err := t.K.mulVec (fun i => t.sigma_d i - r.getMMposition i) + t.FeedForward })

/-- Fields of a `JointLimits` task over the real-valued robot model, for the
state-transformer form of `update` / `updateActivation`. -/
structure JointLimitsTaskR where
  activation : Fin 6 → Int
  lower_limits : Fin 2 → ℝ
  upper_limits : Fin 2 → ℝ
  activation_thresh : ℝ
  deactivation_thresh : ℝ
  K : ℝ
  J : Matrix (Fin 4) (Fin 4) ℝ
  err : ℝ

/-- `JointLimits.updateActivation` (src/src/utils/task.py lines 285-307) as a
transformer of the joint robot/task state: the loop body per `i = 0, 1` reads
`getJointPos(i + 1) = q[i]` and rewrites `activation[i + 2]`. -/
noncomputable def JointLimits.updateActivationP (r : RobotState) (t : JointLimitsTaskR) :
    RobotState × JointLimitsTaskR :=
  let act : Fin 6 → Int := fun k =>
    if k = 2 then
      jointLimitStep (t.activation 2) (r.q 0) (t.lower_limits 0)
        (t.upper_limits 0) t.activation_thresh t.deactivation_thresh
    else if k = 3 then
      jointLimitStep (t.activation 3) (r.q 1) (t.lower_limits 1)
        (t.upper_limits 1) t.activation_thresh t.deactivation_thresh
    else t.activation k
  (r, { t with activation := act })

/-- `JointLimits.update` (src/src/utils/task.py lines 275-280) as a transformer
of the joint robot/task state: `updateActivation`, then `J := np.eye(getDOF())`
and `err := getGain()`. -/
noncomputable def JointLimits.updateP (r : RobotState) (t : JointLimitsTaskR) :
    RobotState × JointLimitsTaskR :=
  let s := JointLimits.updateActivationP r t
  (s.1, { s.2 with J := 1, err := s.2.K })

/-- Fields of an `Obstacle3D` task over the real-valued robot model
(src/src/utils/task.py lines 317-380). -/
structure ObstacleTaskR where
  obstacle : ℝ × ℝ
  activation_thresh : ℝ
  deactivation_thresh : ℝ
  activation : Bool
  J : Matrix (Fin 3) (Fin 4) ℝ
  err : Option ((ℝ × ℝ) × ℝ)
  err_hist : List ℝ

/-- `Obstacle3D.update` (src/src/utils/task.py lines 337-348) as a transformer
of the joint robot/task state: the end-effector planar position is
`getEETransform()[0:2, 3]`; `err` is the direction-normalized offset (see
`obstacle3DUpdateErr`) and `J := getEEJacobian()[0:3, :]`. -/
noncomputable def Obstacle3D.updateP (r : RobotState) (t : ObstacleTaskR) :
    RobotState × ObstacleTaskR :=
  (r, { t with
        err := obstacle3DUpdateErr (r.getEETransform 0 3, r.getEETransform 1 3) t.obstacle,
        J := Matrix.of fun i j => r.eeJacobian (Fin.castLE (by omega) i) j })

/-- `Obstacle3D.updateActivation` (src/src/utils/task.py lines 353-373) as a
transformer of the joint robot/task state: the hysteresis step on the planar
distance to the obstacle, followed by the `err_hist.append(distance)`. -/
noncomputable def Obstacle3D.updateActivationP (r : RobotState) (t : ObstacleTaskR) :
    RobotState × ObstacleTaskR :=
  let d := Real.sqrt (obstacleDistSq t.obstacle (r.getEETransform 0 3, r.getEETransform 1 3))
  (r, { t with
        activation := obstacleActivationStep t.activation d t.activation_thresh
          t.deactivation_thresh,
        err_hist := t.err_hist ++ [d] })

/-- C1: the joint-limit per-joint activation follows the four-transition
two-threshold hysteresis state machine with closed boundaries (under the
configured non-overlapping activation bands, `lower + actT < upper - actT`):
from 0 it becomes -1 when `p ≥ u - actT`, from 0 it becomes +1 when
`p ≤ l + actT`, from -1 it becomes 0 when `p ≤ u - deactT`, from +1 it becomes
0 when `p ≥ l + deactT`, and in every other case it is unchanged; in
particular, with joint-2 limits `[-1.571, 0.05]` and activation threshold
`0.05`, joint-2 position exactly `0.00` with prior activation 0 yields
activation `-1` on that tick. -/
theorem jointLimit_hysteresis (a : Int) (p l u actT deactT : ℚ)
    (h : l + actT < u - actT) :
    (a = 0 → u - actT ≤ p → jointLimitStep a p l u actT deactT = -1) ∧
    (a = 0 → p ≤ l + actT → jointLimitStep a p l u actT deactT = 1) ∧
    (a = -1 → p ≤ u - deactT → jointLimitStep a p l u actT deactT = 0) ∧
    (a = 1 → l + deactT ≤ p → jointLimitStep a p l u actT deactT = 0) ∧
    (¬(u - actT ≤ p ∧ a = 0) → ¬(a = 0 ∧ p ≤ l + actT) →
      ¬(a = -1 ∧ p ≤ u - deactT) → ¬(a = 1 ∧ l + deactT ≤ p) →
      jointLimitStep a p l u actT deactT = a) ∧
    jointLimitsUpdateActivation (fun _ => 0) ![0, 0, 0, 0]
      ![-1.571, -1.571] ![1.571, 0.05] 0.05 0.08 3 = -1 := by
  refine ⟨?_, ?_, ?_, ?_, ?_, ?_⟩
  · intro ha hp
    simp only [jointLimitStep, if_pos (And.intro hp ha)]
  · intro ha hp
    have h1 : ¬(u - actT ≤ p ∧ a = 0) := by
      rintro ⟨hg, _⟩; linarith
    simp only [jointLimitStep, if_neg h1, if_pos (And.intro ha hp)]
  · intro ha hp
    have h1 : ¬(u - actT ≤ p ∧ a = 0) := by
      rintro ⟨_, h0⟩; rw [ha] at h0; exact absurd h0 (by decide)
    have h2 : ¬(a = 0 ∧ p ≤ l + actT) := by
      rintro ⟨h0, _⟩; rw [ha] at h0; exact absurd h0 (by decide)
    simp only [jointLimitStep, if_neg h1, if_neg h2, if_pos (And.intro ha hp)]
  · intro ha hp
    have h1 : ¬(u - actT ≤ p ∧ a = 0) := by
      rintro ⟨_, h0⟩; rw [ha] at h0; exact absurd h0 (by decide)
    have h2 : ¬(a = 0 ∧ p ≤ l + actT) := by
      rintro ⟨h0, _⟩; rw [ha] at h0; exact absurd h0 (by decide)
    have h3 : ¬(a = -1 ∧ p ≤ u - deactT) := by
      rintro ⟨h0, _⟩; rw [ha] at h0; exact absurd h0 (by decide)
    simp only [jointLimitStep, if_neg h1, if_neg h2, if_neg h3,
      if_pos (And.intro ha hp)]
  · intro h1 h2 h3 h4
    simp only [jointLimitStep, if_neg h1, if_neg h2, if_neg h3, if_neg h4]
  · norm_num [jointLimitsUpdateActivation, jointLimitStep]
    decide

/-- Witness for the joint-limit hysteresis theorem at the configured joint-2
limits and thresholds, with the joint at the exact activation boundary. -/
theorem jointLimit_hysteresis_witness :
    (-1.571 : ℚ) + 0.05 < 0.05 - 0.05 ∧
    jointLimitStep 0 (0 : ℚ) (-1.571) 0.05 0.05 0.08 = -1 :=
  ⟨by norm_num,
    (jointLimit_hysteresis 0 0 (-1.571) 0.05 0.05 0.08 (by norm_num)).1 rfl
      (by norm_num)⟩

/-- C2: the obstacle-avoidance binary activation follows two-threshold
hysteresis: from inactive it switches on exactly when the planar distance is
at most the activation threshold, from active it switches off exactly when the
distance is at least the deactivation threshold, and for a distance strictly
between the thresholds the activation is unchanged. -/
theorem obstacle_hysteresis (s : ObstacleState) (d actT deactT : ℚ) :
    (s.activation = false →
      ((obstacleUpdateActivation s d actT deactT).activation = true ↔ d ≤ actT)) ∧
    (s.activation = true →
      ((obstacleUpdateActivation s d actT deactT).activation = false ↔ deactT ≤ d)) ∧
    (actT < d → d < deactT →
      (obstacleUpdateActivation s d actT deactT).activation = s.activation) := by
  unfold obstacleUpdateActivation obstacleActivationStep
  refine ⟨?_, ?_, ?_⟩
  · intro ha
    by_cases hd : d ≤ actT <;> simp [ha, hd]
  · intro ha
    by_cases hd : deactT ≤ d <;> simp [ha, hd]
  · intro h1 h2
    cases hb : s.activation
    · simp [hb, not_le.mpr h1]
    · simp [hb, not_le.mpr h2]

/-- Witness for the obstacle hysteresis theorem: distance strictly between the
thresholds leaves an inactive task inactive. -/
theorem obstacle_hysteresis_witness :
    (1 : ℚ) < 2 ∧ (2 : ℚ) < 3 ∧
    (obstacleUpdateActivation ⟨false, []⟩ 2 1 3).activation = false :=
  ⟨by norm_num, by norm_num,
    (obstacle_hysteresis ⟨false, []⟩ 2 1 3).2.2 (by norm_num) (by norm_num)⟩

/-- C10: with activation threshold strictly below deactivation threshold,
`Obstacle3D.updateActivation` is idempotent in the activation state: a second
call with the same distance leaves the activation at the value after the first
call, while the error history grows by exactly one entry per call. -/
theorem obstacle_updateActivation_idempotent (s : ObstacleState)
    (d actT deactT : ℚ) (h : actT < deactT) :
    ((obstacleUpdateActivation (obstacleUpdateActivation s d actT deactT)
        d actT deactT).activation
      = (obstacleUpdateActivation s d actT deactT).activation) ∧
    (obstacleUpdateActivation s d actT deactT).err_hist.length
      = s.err_hist.length + 1 ∧
    (obstacleUpdateActivation (obstacleUpdateActivation s d actT deactT)
        d actT deactT).err_hist.length
      = s.err_hist.length + 2 := by
  unfold obstacleUpdateActivation obstacleActivationStep
  refine ⟨?_, by simp, by simp⟩
  cases hb : s.activation
  · by_cases hd : d ≤ actT
    · have : ¬ deactT ≤ d := not_le.mpr (lt_of_le_of_lt hd h)
      simp [hb, hd, this]
    · simp [hb, hd]
  · by_cases he : deactT ≤ d
    · have : ¬ d ≤ actT := not_le.mpr (lt_of_lt_of_le h he)
      simp [hb, he, this]
    · simp [hb, he]

/-- Witness for the obstacle idempotence theorem at thresholds 1 < 2 and
distance 3. -/
theorem obstacle_updateActivation_idempotent_witness :
    (1 : ℚ) < 2 ∧
    ((obstacleUpdateActivation (obstacleUpdateActivation ⟨false, []⟩ 3 1 2)
        3 1 2).activation
      = (obstacleUpdateActivation ⟨false, []⟩ 3 1 2).activation) :=
  ⟨by norm_num,
    (obstacle_updateActivation_idempotent ⟨false, []⟩ 3 1 2 (by norm_num)).1⟩

/-- The squared planar obstacle distance vanishes exactly when the end-effector
projection coincides with the obstacle point. -/
theorem obstacleDistSq_eq_zero_iff (obs ee : ℚ × ℚ) :
    obstacleDistSq obs ee = 0 ↔ ee = obs := by
  rcases obs with ⟨ox, oy⟩
  rcases ee with ⟨ex, ey⟩
  unfold obstacleDistSq
  simp only [Prod.mk.injEq]
  constructor
  · intro h0
    have hx : (ox - ex) ^ 2 = 0 :=
      le_antisymm (by nlinarith [sq_nonneg (oy - ey)]) (sq_nonneg _)
    have hy : (oy - ey) ^ 2 = 0 :=
      le_antisymm (by nlinarith [sq_nonneg (ox - ex)]) (sq_nonneg _)
    have hx0 : ox - ex = 0 := by
      exact (pow_eq_zero_iff (by norm_num : (2 : ℕ) ≠ 0)).mp hx
    have hy0 : oy - ey = 0 := by
      exact (pow_eq_zero_iff (by norm_num : (2 : ℕ) ≠ 0)).mp hy
    constructor <;> linarith
  · rintro ⟨rfl, rfl⟩
    ring

/-- C3: the distance denominator of `Obstacle3D.update` is NOT guarded against
exact zero: at an end-effector planar position coinciding with the obstacle
point the update divides by the zero norm (the undefined-result marker), and
this happens exactly at coincidence. -/
theorem obstacle_update_zero_distance :
    obstacle3DUpdateErr ((0 : ℚ), (0 : ℚ)) (0, 0) = none ∧
    ∀ ee obs : ℚ × ℚ, obstacle3DUpdateErr ee obs = none ↔ ee = obs := by
  have hmain : ∀ ee obs : ℚ × ℚ, obstacle3DUpdateErr ee obs = none ↔ ee = obs := by
    intro ee obs
    unfold obstacle3DUpdateErr
    by_cases h0 : obstacleDistSq obs ee = 0
    · rw [if_pos h0]
      exact iff_of_true rfl ((obstacleDistSq_eq_zero_iff obs ee).mp h0)
    · simp only [if_neg h0]
      constructor
      · intro hc
        exact absurd hc (by simp)
      · intro he
        exact absurd ((obstacleDistSq_eq_zero_iff obs ee).mpr he) h0
  exact ⟨(hmain _ _).mpr rfl, hmain⟩

/-- C4: the simultaneous (constant-curvature) base-motion integration divides
`forward_vel` by `angular_vel` unconditionally, so at zero angular velocity the
result is the undefined division-by-zero marker rather than a straight-line
degeneration. -/
theorem simultaneous_integration_zero_angular (x y yaw v dt : ℝ) :
    move_and_rotate_simultaneously x y yaw 0 v dt = none := by
  unfold move_and_rotate_simultaneously
  simp

/-- C7 counterexample: joint index 4 lies outside `[0, DOF) = [0, 4)`, yet
`getJointPos` silently returns the fourth joint position instead of failing. -/
theorem getJointPos_out_of_range_silent :
    getJointPos [1, 2, 3, 4] 4 = some 4 := rfl

/-- C7 amended: `getJointPos` is a 1-based accessor with numpy wraparound and
no validation against `[0, DOF)`: for `1 ≤ joint ≤ DOF` it returns entry
`joint - 1`; for `1 - DOF ≤ joint ≤ 0` it silently wraps to entry
`joint - 1 + DOF`; it fails only when `joint > DOF` or `joint < 1 - DOF`. -/
theorem getJointPos_indexing (q : List ℚ) (joint : Int) :
    (1 ≤ joint → joint ≤ (q.length : Int) →
      getJointPos q joint = q.get? (joint - 1).toNat) ∧
    (joint ≤ 0 → 1 - (q.length : Int) ≤ joint →
      getJointPos q joint = q.get? (joint - 1 + q.length).toNat) ∧
    ((q.length : Int) < joint ∨ joint < 1 - (q.length : Int) →
      getJointPos q joint = none) := by
  unfold getJointPos numpyGet
  refine ⟨?_, ?_, ?_⟩
  · intro h1 h2
    rw [if_neg (by omega), if_pos (by omega)]
  · intro h1 h2
    rw [if_pos (by omega), if_pos (by omega)]
  · intro h3
    rcases h3 with h3 | h3
    · rw [if_neg (by omega), if_neg (by omega)]
    · rw [if_pos (by omega), if_neg (by omega)]

/-- Witness for the indexing theorem: the in-range 1-based index 2 returns the
second joint position. -/
theorem getJointPos_indexing_witness :
    (1 : Int) ≤ 2 ∧ (2 : Int) ≤ (([1, 2, 3, 4] : List ℚ).length : Int) ∧
    getJointPos [1, 2, 3, 4] 2 = some 2 := by
  refine ⟨by decide, by decide, ?_⟩
  have h := (getJointPos_indexing [1, 2, 3, 4] 2).1 (by decide) (by decide)
  rw [h]
  rfl

/-- C8 counterexample: with the configured limits and a robot state that keeps
every per-joint activation at zero, `JointLimits.update` still writes the full
identity Jacobian -- the joints with activation 0 each contribute a unit row
instead of contributing nothing. -/
theorem jointLimits_inactive_joint_unit_row :
    (∀ k, (jointLimitsUpdate ⟨fun _ => 0, 1, 0, 0⟩ ![0, -0.5, 0, 0]
        ![-1.571, -1.571] ![1.571, 0.05] 0.05 0.08).activation k = 0) ∧
    (jointLimitsUpdate ⟨fun _ => 0, 1, 0, 0⟩ ![0, -0.5, 0, 0]
        ![-1.571, -1.571] ![1.571, 0.05] 0.05 0.08).J 0 0 = 1 := by
  constructor
  · intro k
    fin_cases k <;>
      norm_num [jointLimitsUpdate, jointLimitsUpdateActivation, jointLimitStep]
  · simp [jointLimitsUpdate, Matrix.one_apply]

/-- C8 amended: after `JointLimits.update` the task Jacobian is the full
DOF-by-DOF identity regardless of the activation array, the error equals the
configured gain, and `isActive` reports active iff at least one per-joint
activation entry is nonzero. -/
theorem jointLimits_update_identity_and_gain (t : JointLimitsTask)
    (q : Fin 4 → ℚ) (lower upper : Fin 2 → ℚ) (actT deactT : ℚ) :
    (jointLimitsUpdate t q lower upper actT deactT).J = 1 ∧
    (jointLimitsUpdate t q lower upper actT deactT).err = t.K ∧
    (jointLimitsIsActive t = 1 ↔ ∃ k, t.activation k ≠ 0) := by
  refine ⟨rfl, rfl, ?_⟩
  unfold jointLimitsIsActive
  by_cases hall : ∀ k, t.activation k = 0
  · rw [if_pos hall]
    simp [hall]
  · rw [if_neg hall]
    exact iff_of_true rfl (by simpa using not_forall.mp hall)

/-- C5 counterexample: the end-effector Jacobian array is allocated as
`np.zeros((6, dof))` with `dof = 4`, not `(6, DOF_total)` with
`DOF_total = 2 + 4 = 6`: there are no base columns. -/
theorem getEEJacobian_shape_not_six_cols : EEJacobianShape ≠ (6, 6) := by
  decide

/-- C5 amended: `getEEJacobian` returns a `(6, 4)` matrix whose four columns are
the joint-rate derivatives only (the two base command dimensions receive no
columns); rows 0-2 hold the position partials, rows 3-4 are identically zero
and row 5 is the heading row `[1, 0, 0, 1]`. -/
theorem getEEJacobian_shape (q1 q2 q3 q4 eta3 : ℝ) :
    EEJacobianShape = (6, 4) ∧
    (∀ j, getEEJacobian q1 q2 q3 q4 eta3 3 j = 0) ∧
    (∀ j, getEEJacobian q1 q2 q3 q4 eta3 4 j = 0) ∧
    getEEJacobian q1 q2 q3 q4 eta3 5 = ![1, 0, 0, 1] := by
  refine ⟨rfl, ?_, ?_, rfl⟩
  · intro j; fin_cases j <;> rfl
  · intro j; fin_cases j <;> rfl

/-- C6: the analytic Jacobian is inconsistent with the forward kinematics: at
joint configuration `q = (pi/2, 0, pi/2, 0)` with zero base pose, the Jacobian
entry in the y-row / q3-column is `0`, while the partial derivative of the
y-component of `getEEposition` with respect to `q3` there equals
`-d2 = -0.1588`, which is nonzero (the source copies the `dx_dq3` expression
into `dy_dq3`). -/
theorem jacobian_inconsistent_with_fk :
    getEEJacobian (Real.pi / 2) 0 (Real.pi / 2) 0 0 1 2 = 0 ∧
    deriv (fun t => getEEposition (Real.pi / 2) 0 t 0 0 0 0 1) (Real.pi / 2)
      = -(0.1588 : ℝ) ∧
    -(0.1588 : ℝ) ≠ 0 := by
  refine ⟨?_, ?_, by norm_num⟩
  · show -(manipulatorParams.d2 : ℝ) * Real.sin (Real.pi / 2) *
      (Real.cos (Real.pi / 2) * Real.cos 0 - Real.sin (Real.pi / 2) * Real.sin 0)
      = 0
    simp
  · have hg : (fun t => getEEposition (Real.pi / 2) 0 t 0 0 0 0 1)
        = fun t => ((manipulatorParams.bx : ℝ) + (manipulatorParams.mx : ℝ))
            + (manipulatorParams.d2 : ℝ) * Real.cos t := by
      funext t
      show ((manipulatorParams.bx : ℝ) + -(manipulatorParams.d1 : ℝ) * Real.sin 0 +
          (manipulatorParams.d2 : ℝ) * Real.cos t + (manipulatorParams.mx : ℝ)) *
          Real.sin (Real.pi / 2) + 0
        = ((manipulatorParams.bx : ℝ) + (manipulatorParams.mx : ℝ))
            + (manipulatorParams.d2 : ℝ) * Real.cos t
      rw [Real.sin_zero, Real.sin_pi_div_two]
      ring
    rw [hg]
    have hd : HasDerivAt
        (fun t => ((manipulatorParams.bx : ℝ) + (manipulatorParams.mx : ℝ))
          + (manipulatorParams.d2 : ℝ) * Real.cos t)
        ((manipulatorParams.d2 : ℝ) * -Real.sin (Real.pi / 2)) (Real.pi / 2) :=
      ((Real.hasDerivAt_cos _).const_mul _).const_add _
    rw [hd.deriv, Real.sin_pi_div_two]
    norm_num [manipulatorParams]

/-- C9: each task variant `update` / `updateActivation` leaves the robot
model untouched: the robot component of each state-transformer is the input
robot state, so `q`, `eta` and the cached transform are unchanged and only the
fields of the task component are rewritten. -/
theorem task_updates_preserve_robot_state (r : RobotState)
    (t1 : EEPositionTask) (t2 : EEOrientationTask) (t3 : EEConfigurationTask)
    (t4 : MMOrientationTask) (t5 : MMpositionTask) (t6 : JointLimitsTaskR)
    (t7 : ObstacleTaskR) :
    (EEPosition3D.update r t1).1 = r ∧ (EEOrientation3D.update r t2).1 = r ∧
    (EEConfiguration3D.update r t3).1 = r ∧ (MMOrientation.update r t4).1 = r ∧
    (MMposition.update r t5).1 = r ∧ (JointLimits.updateP r t6).1 = r ∧
    (JointLimits.updateActivationP r t6).1 = r ∧
    (Obstacle3D.updateP r t7).1 = r ∧
    (Obstacle3D.updateActivationP r t7).1 = r :=
  ⟨rfl, rfl, rfl, rfl, rfl, rfl, rfl, rfl, rfl⟩
